import Mathlib

set_option maxHeartbeats 1000000

/-!
Verification of the conversation-memory example repository.

The repository's single script (src/main.py) wires a pre-built agent framework
and issues hard-coded prompts; the conversational core it demonstrates — a
ConversationSession owning an ordered transcript with one operation
`ask(message) -> response` — is described by the specification and is not
itself present under src/.  That core is therefore modelled here from the
specification, while the script's own concrete facts (agent server lists,
module-level bindings, the `__main__` block) are embedded directly from
src/main.py.
-/

/-- Modelled from the spec: the role of a transcript turn (§3, Turn.role),
an enum of user and assistant. -/
inductive Role where
  | user
  | assistant
  deriving DecidableEq, Repr

/-- Modelled from the spec: a Turn is { role, content } (§3), immutable once
appended. -/
structure Turn where
  role : Role
  content : String
  deriving DecidableEq, Repr

/-- Modelled from the spec: the configuration option
`max_context_turns : unbounded | N` (§4.1). -/
inductive MaxContextTurns where
  | unbounded
  | bounded (n : Nat)
  deriving DecidableEq, Repr

/-- Modelled from the spec: session configuration, carrying the context-window
policy (§4.1, §9). -/
structure SessionConfig where
  maxContextTurns : MaxContextTurns
  deriving DecidableEq, Repr

/-- Modelled from the spec: the error taxonomy of §7 —
InvalidInput, CollaboratorUnavailable, SessionClosed. -/
inductive AskError where
  | invalidInput
  | collaboratorUnavailable
  | sessionClosed
  deriving DecidableEq, Repr

/-- Modelled from the spec: a ConversationSession owns an ordered transcript of
turns (§2, §3), an open/closed flag (§4.1: the only states are "open" and
"closed"), and its configuration. -/
structure Session where
  transcript : List Turn
  closed : Bool
  config : SessionConfig
  deriving DecidableEq, Repr

/-- Modelled from the spec: the transcript is created empty at session start
(§3, lifecycle) and the session starts open. -/
def initSession (cfg : SessionConfig) : Session :=
  { transcript := [], closed := false, config := cfg }

/-- Modelled from the spec: the external CompletionCollaborator (§6) maps a
context payload to a response text; `none` models failure with
CollaboratorUnavailable (transport/provider error). -/
def Collaborator : Type := List Turn → Option String

/-- Modelled from the spec: the context payload constructed from the transcript —
the full transcript when unbounded, the trailing window of n turns when
bounded (§4.1). -/
def contextPayload (cfg : SessionConfig) (ts : List Turn) : List Turn :=
  match cfg.maxContextTurns with
  | MaxContextTurns.unbounded => ts
  | MaxContextTurns.bounded n => ts.drop (ts.length - n)

/-- Modelled from the spec: the payload `ask` sends to the collaborator — the
transcript with the new user turn appended, windowed per configuration
(§4.1 Effect, §8 second scenario). -/
def sentPayload (s : Session) (msg : String) : List Turn :=
  contextPayload s.config (s.transcript ++ [⟨Role.user, msg⟩])

/-- Modelled from the spec: `ask(message) -> response` (§4.1). Fails with
SessionClosed on a closed session and InvalidInput on an empty message, both
leaving the session unchanged; otherwise appends the user turn, invokes the
collaborator on the windowed payload, and on success appends the assistant
turn and returns the response; on collaborator failure the user turn remains
appended and no assistant turn is recorded (§4.1 Guarantees). -/
def ask (c : Collaborator) (s : Session) (msg : String) :
    Except AskError String × Session :=
  if s.closed then
    (Except.error AskError.sessionClosed, s)
  else if msg = "" then
    (Except.error AskError.invalidInput, s)
  else
    match c (sentPayload s msg) with
    | none =>
        (Except.error AskError.collaboratorUnavailable,
         { s with transcript := s.transcript ++ [⟨Role.user, msg⟩] })
    | some r =>
        (Except.ok r,
         { s with transcript :=
             s.transcript ++ [⟨Role.user, msg⟩, ⟨Role.assistant, r⟩] })

/-- Modelled from the spec: closing releases the session; further `ask` calls
fail with SessionClosed (§4.1). -/
def closeSession (s : Session) : Session :=
  { s with closed := true }

/-- Modelled from the spec: scoped resource release — the session is created
at scope entry and closed on every exit path of the enclosing scope (§4.1);
the body threads the session state and may end in an error. -/
def withSession (cfg : SessionConfig)
    (body : Session → Except AskError String × Session) :
    Except AskError String × Session :=
  let r := body (initSession cfg)
  (r.1, closeSession r.2)

/-- Modelled from the spec: a sequence of `ask` calls against an
always-available collaborator f, so that every call with a non-empty message
succeeds (§8, first property). -/
def runSeq (f : List Turn → String) (s : Session) : List String → Session
  | [] => s
  | m :: ms => runSeq f (ask (fun ts => some (f ts)) s m).2 ms

/-- Modelled from the spec: a serialized sequence of `ask` calls, one in
flight at a time (§5), each step carrying its own collaborator availability
so that individual calls may fail. -/
def runCalls (s : Session) : List (Collaborator × String) → Session
  | [] => s
  | (c, m) :: rest => runCalls (ask c s m).2 rest

/-- The user/assistant turn pair contributed by one successful exchange. -/
def pairTurns (p : String × String) : List Turn :=
  [⟨Role.user, p.1⟩, ⟨Role.assistant, p.2⟩]

/-- Case analysis of one `ask` call: it either rejects a closed session,
rejects an empty message, records only the user turn on collaborator failure,
or records the user/assistant pair on success. -/
theorem ask_cases (c : Collaborator) (s : Session) (m : String) :
    (s.closed = true ∧ ask c s m = (Except.error AskError.sessionClosed, s)) ∨
    (s.closed = false ∧ m = "" ∧
      ask c s m = (Except.error AskError.invalidInput, s)) ∨
    (s.closed = false ∧ m ≠ "" ∧ c (sentPayload s m) = none ∧
      ask c s m = (Except.error AskError.collaboratorUnavailable,
        { s with transcript := s.transcript ++ [⟨Role.user, m⟩] })) ∨
    (∃ r, s.closed = false ∧ m ≠ "" ∧ c (sentPayload s m) = some r ∧
      ask c s m = (Except.ok r,
        { s with transcript :=
            s.transcript ++ [⟨Role.user, m⟩, ⟨Role.assistant, r⟩] })) := by
  by_cases hc : s.closed = true
  · exact Or.inl ⟨hc, by simp [ask, hc]⟩
  · have hc' : s.closed = false := by simpa using hc
    by_cases hm : m = ""
    · exact Or.inr (Or.inl ⟨hc', hm, by simp [ask, hc', hm]⟩)
    · cases hp : c (sentPayload s m) with
      | none =>
          exact Or.inr (Or.inr (Or.inl ⟨hc', hm, rfl, by
            simp [ask, hc', hm, hp]⟩))
      | some r =>
          exact Or.inr (Or.inr (Or.inr ⟨r, hc', hm, rfl, by
            simp [ask, hc', hm, hp]⟩))

/-- A successful `ask` call appends exactly the user/assistant pair and changes
nothing else in the session. -/
theorem ask_success (c : Collaborator) (s : Session) (m r : String)
    (h : (ask c s m).1 = Except.ok r) :
    ask c s m = (Except.ok r,
      { s with transcript :=
          s.transcript ++ [⟨Role.user, m⟩, ⟨Role.assistant, r⟩] }) := by
  rcases ask_cases c s m with ⟨_, he⟩ | ⟨_, _, he⟩ | ⟨_, _, _, he⟩ |
    ⟨r', _, _, _, he⟩ <;> rw [he] at h ⊢
  · exact absurd h (by simp)
  · exact absurd h (by simp)
  · exact absurd h (by simp)
  · simp only [Except.ok.injEq] at h
    rw [h]

/-- An `ask` call that fails with CollaboratorUnavailable appends exactly the
user turn and changes nothing else in the session. -/
theorem ask_unavailable (c : Collaborator) (s : Session) (m : String)
    (h : (ask c s m).1 = Except.error AskError.collaboratorUnavailable) :
    ask c s m = (Except.error AskError.collaboratorUnavailable,
      { s with transcript := s.transcript ++ [⟨Role.user, m⟩] }) := by
  rcases ask_cases c s m with ⟨_, he⟩ | ⟨_, _, he⟩ | ⟨_, _, _, he⟩ |
    ⟨r', _, _, _, he⟩ <;> rw [he] at h ⊢
  · exact absurd h (by simp)
  · exact absurd h (by simp)
  · exact absurd h (by simp)

/-- Every `ask` call only appends to the transcript and never closes an open
session or changes the configuration. -/
theorem ask_extend (c : Collaborator) (s : Session) (m : String) :
    (∃ t, (ask c s m).2.transcript = s.transcript ++ t) ∧
    (ask c s m).2.closed = s.closed ∧ (ask c s m).2.config = s.config := by
  rcases ask_cases c s m with ⟨_, he⟩ | ⟨_, _, he⟩ | ⟨_, _, _, he⟩ |
    ⟨r, _, _, _, he⟩ <;> rw [he]
  · exact ⟨⟨[], by simp⟩, rfl, rfl⟩
  · exact ⟨⟨[], by simp⟩, rfl, rfl⟩
  · exact ⟨⟨_, rfl⟩, rfl, rfl⟩
  · exact ⟨⟨_, rfl⟩, rfl, rfl⟩

/-- One step of `runSeq` on an open session with a non-empty message appends
the user turn and the collaborator's answer to the sent payload. -/
theorem runSeq_step (f : List Turn → String) (s : Session) (m : String)
    (hc : s.closed = false) (hm : m ≠ "") :
    (ask (fun ts => some (f ts)) s m).2 =
      { s with transcript := s.transcript ++
          [⟨Role.user, m⟩, ⟨Role.assistant, f (sentPayload s m)⟩] } := by
  simp [ask, hc, hm]

/-- Running a sequence of messages on an open session against an
always-available collaborator appends one user/assistant pair per message, in
call order, leaving the session open with its configuration intact. -/
theorem runSeq_spec (f : List Turn → String) :
    ∀ (ms : List String) (s : Session), s.closed = false →
    (∀ m ∈ ms, m ≠ "") →
    ∃ rs : List String, rs.length = ms.length ∧
      (runSeq f s ms).transcript =
        s.transcript ++ (ms.zip rs).flatMap pairTurns ∧
      (runSeq f s ms).closed = false ∧
      (runSeq f s ms).config = s.config := by
  intro ms
  induction ms with
  | nil =>
      intro s hc _
      exact ⟨[], rfl, by simp [runSeq], hc, rfl⟩
  | cons m ms ih =>
      intro s hc hms
      have hm : m ≠ "" := hms m (by simp)
      have hstep := runSeq_step f s m hc hm
      obtain ⟨rs, hlen, htr, hcl, hcfg⟩ :=
        ih (ask (fun ts => some (f ts)) s m).2 (by rw [hstep]; exact hc)
          (fun x hx => hms x (List.mem_cons_of_mem _ hx))
      refine ⟨f (sentPayload s m) :: rs, by simp [hlen], ?_, ?_, ?_⟩
      · show (runSeq f (ask (fun ts => some (f ts)) s m).2 ms).transcript = _
        rw [htr, hstep]
        simp [pairTurns]
      · show (runSeq f (ask (fun ts => some (f ts)) s m).2 ms).closed = false
        exact hcl
      · show (runSeq f (ask (fun ts => some (f ts)) s m).2 ms).config = _
        rw [hcfg, hstep]

/-- A list of user/assistant pairs flattens to twice as many turns. -/
theorem pairTurns_flatMap_length (l : List (String × String)) :
    (l.flatMap pairTurns).length = 2 * l.length := by
  induction l with
  | nil => rfl
  | cons p l ih => simp [pairTurns, ih]; omega

/-- C1: for every sequence of N successful `ask` calls on a ConversationSession
starting from the empty transcript (non-empty messages against an
always-available collaborator), the transcript after the N-th call consists of
the user/assistant turn pairs of the calls in call order and has length
exactly 2N. -/
theorem c1_transcript_length_two_n (cfg : SessionConfig)
    (f : List Turn → String) (ms : List String) (h : ∀ m ∈ ms, m ≠ "") :
    ∃ rs : List String, rs.length = ms.length ∧
      (runSeq f (initSession cfg) ms).transcript =
        (ms.zip rs).flatMap pairTurns ∧
      (runSeq f (initSession cfg) ms).transcript.length = 2 * ms.length := by
  obtain ⟨rs, hlen, htr, _, _⟩ := runSeq_spec f ms (initSession cfg) rfl h
  have htr' : (runSeq f (initSession cfg) ms).transcript =
      (ms.zip rs).flatMap pairTurns := by
    simpa [initSession] using htr
  refine ⟨rs, hlen, htr', ?_⟩
  rw [htr', pairTurns_flatMap_length, List.length_zip, hlen, Nat.min_self]

/-- Witness for C1 at a concrete two-call conversation. -/
theorem c1_transcript_length_two_n_witness :
    (∀ m ∈ ["Hi", "How are you?"], m ≠ "") ∧
    ∃ rs : List String, rs.length = 2 ∧
      (runSeq (fun _ => "Hello") (initSession ⟨MaxContextTurns.unbounded⟩)
        ["Hi", "How are you?"]).transcript =
        ((["Hi", "How are you?"].zip rs).flatMap pairTurns) ∧
      (runSeq (fun _ => "Hello") (initSession ⟨MaxContextTurns.unbounded⟩)
        ["Hi", "How are you?"]).transcript.length = 2 * 2 :=
  ⟨by decide,
   c1_transcript_length_two_n ⟨MaxContextTurns.unbounded⟩ (fun _ => "Hello")
     ["Hi", "How are you?"] (by decide)⟩

/-- C3: on an open session, calling `ask` with the empty message fails with
InvalidInput and leaves the session — in particular the transcript and its
length — unchanged. -/
theorem c3_empty_message_rejected (c : Collaborator) (s : Session)
    (h : s.closed = false) :
    ask c s "" = (Except.error AskError.invalidInput, s) ∧
    (ask c s "").2.transcript.length = s.transcript.length := by
  refine ⟨by simp [ask, h], by simp [ask, h]⟩

/-- Witness for C3 on the freshly created empty session: the transcript length
stays 0. -/
theorem c3_empty_message_rejected_witness :
    (initSession ⟨MaxContextTurns.unbounded⟩).closed = false ∧
    ask (fun _ => some "Hello") (initSession ⟨MaxContextTurns.unbounded⟩) "" =
      (Except.error AskError.invalidInput,
        initSession ⟨MaxContextTurns.unbounded⟩) ∧
    (ask (fun _ => some "Hello")
      (initSession ⟨MaxContextTurns.unbounded⟩) "").2.transcript.length = 0 :=
  ⟨rfl,
   (c3_empty_message_rejected (fun _ => some "Hello")
     (initSession ⟨MaxContextTurns.unbounded⟩) rfl).1,
   (c3_empty_message_rejected (fun _ => some "Hello")
     (initSession ⟨MaxContextTurns.unbounded⟩) rfl).2⟩

/-- Transcript extension across a serialized sequence of calls: the starting
transcript is left in place and turns are only appended after it. -/
theorem runCalls_extend :
    ∀ (calls : List (Collaborator × String)) (s : Session),
    ∃ t, (runCalls s calls).transcript = s.transcript ++ t := by
  intro calls
  induction calls with
  | nil => intro s; exact ⟨[], by simp [runCalls]⟩
  | cons p rest ih =>
      intro s
      obtain ⟨c, m⟩ := p
      obtain ⟨u, hu⟩ := (ask_extend c s m).1
      obtain ⟨t, ht⟩ := ih (ask c s m).2
      refine ⟨u ++ t, ?_⟩
      show (runCalls (ask c s m).2 rest).transcript = _
      rw [ht, hu, List.append_assoc]

/-- C4: over any serialized sequence of `ask` calls, successful or failed, the
starting transcript stays in place (so the transcript length never decreases),
and every successful call appends exactly its alternating user/assistant pair —
a user turn of a successful call is never followed by another user turn of the
same call. -/
theorem c4_transcript_monotone_alternating (s : Session)
    (calls : List (Collaborator × String)) :
    (∃ t, (runCalls s calls).transcript = s.transcript ++ t) ∧
    s.transcript.length ≤ (runCalls s calls).transcript.length ∧
    (∀ (c : Collaborator) (m r : String), (ask c s m).1 = Except.ok r →
      (ask c s m).2.transcript =
        s.transcript ++ [⟨Role.user, m⟩, ⟨Role.assistant, r⟩]) := by
  obtain ⟨t, ht⟩ := runCalls_extend calls s
  refine ⟨⟨t, ht⟩, by rw [ht]; simp, ?_⟩
  intro c m r h
  rw [ask_success c s m r h]

/-- Witness for C4 on a one-call sequence with a successful exchange. -/
theorem c4_transcript_monotone_alternating_witness :
    (∃ t, (runCalls (initSession ⟨MaxContextTurns.unbounded⟩)
        [((fun _ => some "Hello" : Collaborator), "Hi")]).transcript =
      (initSession ⟨MaxContextTurns.unbounded⟩).transcript ++ t) ∧
    (ask (fun _ => some "Hello")
        (initSession ⟨MaxContextTurns.unbounded⟩) "Hi").2.transcript =
      (initSession ⟨MaxContextTurns.unbounded⟩).transcript ++
        [⟨Role.user, "Hi"⟩, ⟨Role.assistant, "Hello"⟩] := by
  have h := c4_transcript_monotone_alternating
    (initSession ⟨MaxContextTurns.unbounded⟩)
    [((fun _ => some "Hello" : Collaborator), "Hi")]
  exact ⟨h.1, h.2.2 (fun _ => some "Hello") "Hi" "Hello" rfl⟩

/-- C6: any `ask` call on a closed session fails with SessionClosed and leaves
the session — in particular the transcript — unchanged, and a scoped session
run releases (closes) the session on every exit path of the enclosing scope,
whatever the body did. -/
theorem c6_closed_session_rejects_ask (c : Collaborator) (s : Session)
    (m : String) (h : s.closed = true) :
    ask c s m = (Except.error AskError.sessionClosed, s) ∧
    (∀ (cfg : SessionConfig)
      (body : Session → Except AskError String × Session),
      (withSession cfg body).2.closed = true) :=
  ⟨by simp [ask, h], fun _ _ => rfl⟩

/-- Witness for C6: a closed session rejects ask("x") unchanged, and a scope
whose body exits through a collaborator failure still ends closed. -/
theorem c6_closed_session_rejects_ask_witness :
    ({ transcript := [], closed := true,
       config := ⟨MaxContextTurns.unbounded⟩ } : Session).closed = true ∧
    ask (fun _ => some "y")
      { transcript := [], closed := true,
        config := ⟨MaxContextTurns.unbounded⟩ } "x" =
      (Except.error AskError.sessionClosed,
       { transcript := [], closed := true,
         config := ⟨MaxContextTurns.unbounded⟩ }) ∧
    (withSession ⟨MaxContextTurns.unbounded⟩
      (fun s => ask (fun _ => none) s "x")).2.closed = true := by
  have h := c6_closed_session_rejects_ask (fun _ => some "y")
    { transcript := [], closed := true,
      config := ⟨MaxContextTurns.unbounded⟩ } "x" rfl
  exact ⟨rfl, h.1, h.2 ⟨MaxContextTurns.unbounded⟩ (fun s => ask (fun _ => none) s "x")⟩

/-- C2: from any transcript state, an `ask` call that fails with
CollaboratorUnavailable appends exactly the user turn (transcript length + 1,
no assistant turn), and a subsequent successful `ask` appends exactly two
further turns relative to that point, with no duplicated or dropped turns. -/
theorem c2_unavailable_then_retry (s : Session) (c1 c2 : Collaborator)
    (m1 : String)
    (h1 : (ask c1 s m1).1 = Except.error AskError.collaboratorUnavailable) :
    (ask c1 s m1).2.transcript = s.transcript ++ [⟨Role.user, m1⟩] ∧
    (ask c1 s m1).2.transcript.length = s.transcript.length + 1 ∧
    (∀ (m2 r : String),
      (ask c2 (ask c1 s m1).2 m2).1 = Except.ok r →
      (ask c2 (ask c1 s m1).2 m2).2.transcript =
        s.transcript ++
          [⟨Role.user, m1⟩, ⟨Role.user, m2⟩, ⟨Role.assistant, r⟩]) := by
  have he := ask_unavailable c1 s m1 h1
  refine ⟨by rw [he], by rw [he]; simp, ?_⟩
  intro m2 r h2
  rw [ask_success c2 (ask c1 s m1).2 m2 r h2, he]
  simp

/-- Witness for C2: a failing call records only the user turn, and the retry
appends exactly the next user/assistant pair. -/
theorem c2_unavailable_then_retry_witness :
    (ask (fun _ => none) (initSession ⟨MaxContextTurns.unbounded⟩) "a").1 =
      Except.error AskError.collaboratorUnavailable ∧
    (ask (fun _ => none)
        (initSession ⟨MaxContextTurns.unbounded⟩) "a").2.transcript =
      (initSession ⟨MaxContextTurns.unbounded⟩).transcript ++
        [⟨Role.user, "a"⟩] ∧
    (ask (fun _ => some "pong")
        (ask (fun _ => none)
          (initSession ⟨MaxContextTurns.unbounded⟩) "a").2 "b").2.transcript =
      (initSession ⟨MaxContextTurns.unbounded⟩).transcript ++
        [⟨Role.user, "a"⟩, ⟨Role.user, "b"⟩, ⟨Role.assistant, "pong"⟩] := by
  have h := c2_unavailable_then_retry
    (initSession ⟨MaxContextTurns.unbounded⟩)
    (fun _ => none) (fun _ => some "pong") "a" rfl
  exact ⟨rfl, h.1, h.2.2 "b" "pong" rfl⟩

/-- C5: with max_context_turns = 2, after 3 successful exchanges (6 turns in
the transcript), the payload sent to the collaborator on the 4th `ask` call is
the trailing window of 2 turns of the transcript-plus-new-user-turn — only
the most recent 2 turns, not all 6. -/
theorem c5_bounded_window_payload (f : List Turn → String)
    (m1 m2 m3 m4 : String)
    (h1 : m1 ≠ "") (h2 : m2 ≠ "") (h3 : m3 ≠ "") (s3 : Session)
    (hs3 : s3 = runSeq f (initSession ⟨MaxContextTurns.bounded 2⟩)
      [m1, m2, m3]) :
    s3.transcript.length = 6 ∧
    sentPayload s3 m4 = (s3.transcript ++ [Turn.mk Role.user m4]).drop 5 ∧
    (sentPayload s3 m4).length = 2 ∧
    sentPayload s3 m4 ≠ s3.transcript := by
  obtain ⟨rs, hlen, htr, _, hcfg⟩ :=
    runSeq_spec f [m1, m2, m3] (initSession ⟨MaxContextTurns.bounded 2⟩) rfl
      (by intro x hx; fin_cases hx <;> assumption)
  have hlen6 : s3.transcript.length = 6 := by
    rw [hs3, htr]
    rw [show (initSession ⟨MaxContextTurns.bounded 2⟩).transcript =
          ([] : List Turn) from rfl,
        List.nil_append, pairTurns_flatMap_length, List.length_zip, hlen]
    simp
  have hcfg3 : s3.config = ⟨MaxContextTurns.bounded 2⟩ := by
    rw [hs3, hcfg]
    rfl
  have hpay : sentPayload s3 m4 =
      (s3.transcript ++ [Turn.mk Role.user m4]).drop 5 := by
    rw [sentPayload, contextPayload, hcfg3]
    simp [List.length_append, hlen6]
  have hplen : (sentPayload s3 m4).length = 2 := by
    rw [hpay]
    simp [List.length_drop, List.length_append, hlen6]
  refine ⟨hlen6, hpay, hplen, ?_⟩
  intro heq
  have h26 : (2 : Nat) = 6 := by rw [← hplen, heq, hlen6]
  exact absurd h26 (by decide)

/-- Witness for C5 at a concrete three-exchange conversation. -/
theorem c5_bounded_window_payload_witness :
    (runSeq (fun _ => "r") (initSession ⟨MaxContextTurns.bounded 2⟩)
      ["a", "b", "c"]).transcript.length = 6 ∧
    sentPayload (runSeq (fun _ => "r")
        (initSession ⟨MaxContextTurns.bounded 2⟩) ["a", "b", "c"]) "d" =
      ((runSeq (fun _ => "r") (initSession ⟨MaxContextTurns.bounded 2⟩)
        ["a", "b", "c"]).transcript ++ [Turn.mk Role.user "d"]).drop 5 ∧
    (sentPayload (runSeq (fun _ => "r")
        (initSession ⟨MaxContextTurns.bounded 2⟩) ["a", "b", "c"]) "d").length
      = 2 ∧
    sentPayload (runSeq (fun _ => "r")
        (initSession ⟨MaxContextTurns.bounded 2⟩) ["a", "b", "c"]) "d" ≠
      (runSeq (fun _ => "r") (initSession ⟨MaxContextTurns.bounded 2⟩)
        ["a", "b", "c"]).transcript := by
  have h := c5_bounded_window_payload (fun _ => "r") "a" "b" "c" "d"
    (by decide) (by decide) (by decide) _ rfl
  exact ⟨h.1, h.2.1, h.2.2.1, h.2.2.2⟩

/-- C7: serialized execution of a batch of issued `ask` calls — one in flight
at a time, as the per-session lock of §5 requires — yields a transcript that
extends the starting one by exactly one contiguous block per call in
serialization order: a lone user turn for a failed call, or the contiguous
user/assistant pair for a successful call; the pairs of distinct calls never
interleave. -/
theorem c7_serialized_contiguous_pairs :
    ∀ (calls : List (Collaborator × String)) (s : Session),
    s.closed = false → (∀ p ∈ calls, p.2 ≠ "") →
    ∃ blocks : List (List Turn),
      (runCalls s calls).transcript = s.transcript ++ blocks.flatten ∧
      List.Forall₂ (fun (p : Collaborator × String) (b : List Turn) =>
        b = [⟨Role.user, p.2⟩] ∨
        ∃ r, b = [⟨Role.user, p.2⟩, ⟨Role.assistant, r⟩]) calls blocks := by
  intro calls
  induction calls with
  | nil =>
      intro s _ _
      exact ⟨[], by simp [runCalls], List.Forall₂.nil⟩
  | cons p rest ih =>
      intro s hc hm
      obtain ⟨c, m⟩ := p
      have hm1 : m ≠ "" := hm (c, m) (by simp)
      have hmr : ∀ q ∈ rest, q.2 ≠ "" :=
        fun q hq => hm q (List.mem_cons_of_mem _ hq)
      rcases ask_cases c s m with ⟨hcl, _⟩ | ⟨_, hme, _⟩ | ⟨_, _, _, he⟩ |
        ⟨r, _, _, _, he⟩
      · simp [hc] at hcl
      · exact absurd hme hm1
      · obtain ⟨blocks, hbt, hb⟩ :=
          ih (ask c s m).2 (by rw [he]; exact hc) hmr
        refine ⟨[⟨Role.user, m⟩] :: blocks, ?_, ?_⟩
        · show (runCalls (ask c s m).2 rest).transcript = _
          rw [hbt, he]
          simp
        · exact List.Forall₂.cons (Or.inl rfl) hb
      · obtain ⟨blocks, hbt, hb⟩ :=
          ih (ask c s m).2 (by rw [he]; exact hc) hmr
        refine ⟨[⟨Role.user, m⟩, ⟨Role.assistant, r⟩] :: blocks, ?_, ?_⟩
        · show (runCalls (ask c s m).2 rest).transcript = _
          rw [hbt, he]
          simp
        · exact List.Forall₂.cons (Or.inr ⟨r, rfl⟩) hb

/-- Witness for C7 on a batch of two serialized calls, the first failing and
the second succeeding. -/
theorem c7_serialized_contiguous_pairs_witness :
    (∀ p ∈ [((fun _ => none : Collaborator), "a"),
            ((fun _ => some "r" : Collaborator), "b")], p.2 ≠ "") ∧
    ∃ blocks : List (List Turn),
      (runCalls (initSession ⟨MaxContextTurns.unbounded⟩)
        [((fun _ => none : Collaborator), "a"),
         ((fun _ => some "r" : Collaborator), "b")]).transcript =
        (initSession ⟨MaxContextTurns.unbounded⟩).transcript ++
          blocks.flatten ∧
      List.Forall₂ (fun (p : Collaborator × String) (b : List Turn) =>
        b = [⟨Role.user, p.2⟩] ∨
        ∃ r, b = [⟨Role.user, p.2⟩, ⟨Role.assistant, r⟩])
        [((fun _ => none : Collaborator), "a"),
         ((fun _ => some "r" : Collaborator), "b")] blocks := by
  have hnz : ∀ p ∈ [((fun _ => none : Collaborator), "a"),
      ((fun _ => some "r" : Collaborator), "b")], p.2 ≠ "" := by
    intro p hp
    simp only [List.mem_cons, List.not_mem_nil, or_false] at hp
    rcases hp with rfl | rfl <;> decide
  exact ⟨hnz, c7_serialized_contiguous_pairs
    [((fun _ => none : Collaborator), "a"),
     ((fun _ => some "r" : Collaborator), "b")]
    (initSession ⟨MaxContextTurns.unbounded⟩) rfl hnz⟩

/-- A binding at module level of a Python script: either a runtime object
bound by an assignment, or an async function definition. -/
inductive PyBinding where
  | objectBinding (name : String)
  | asyncFunctionDef (name : String)
  deriving DecidableEq, Repr

/-- Module-level bindings of src/main.py in source order: line 7 binds the
runtime object `app = MCPApp(name="memory_agent_example")`; lines 9, 71 and
113 define the async functions memory_example, advanced_memory_example and
multi_turn_workflow_example. -/
def mainModuleBindings : List PyBinding :=
  [PyBinding.objectBinding "app",
   PyBinding.asyncFunctionDef "memory_example",
   PyBinding.asyncFunctionDef "advanced_memory_example",
   PyBinding.asyncFunctionDef "multi_turn_workflow_example"]

/-- The module-level runtime objects (non-function bindings) of src/main.py. -/
def moduleLevelObjects : List String :=
  mainModuleBindings.filterMap fun b =>
    match b with
    | PyBinding.objectBinding n => some n
    | PyBinding.asyncFunctionDef _ => none

/-- The functions of src/main.py that enter `app.run()` on the module-level
`app` object (lines 14, 76 and 118). -/
def appUsers : List String :=
  ["memory_example", "advanced_memory_example", "multi_turn_workflow_example"]

/-- server_names of the research_agent constructed in src/main.py
lines 18-27. -/
def research_agent_server_names : List String :=
  ["fetch", "filesystem"]

/-- server_names of the memory_agent constructed in src/main.py lines 80-86;
it is the only agent that includes the "memory" server. -/
def memory_agent_server_names : List String :=
  ["memory", "fetch", "filesystem"]

/-- server_names of the data_analyst agent constructed in src/main.py
lines 121-126. -/
def analyst_agent_server_names : List String :=
  ["filesystem", "fetch"]

/-- The three example coroutines defined by src/main.py. -/
inductive ExampleName where
  | memoryExample
  | advancedMemoryExample
  | multiTurnWorkflowExample
  deriving DecidableEq, Repr

/-- The example coroutines defined in src/main.py (lines 9, 71, 113). -/
def definedExamples : List ExampleName :=
  [ExampleName.memoryExample, ExampleName.advancedMemoryExample,
   ExampleName.multiTurnWorkflowExample]

/-- The example coroutines the __main__ block actually passes to asyncio.run
(src/main.py lines 160-172): only advanced_memory_example (line 168); the
invocations of memory_example (line 165) and multi_turn_workflow_example
(line 171) are commented out. -/
def mainInvocations : List ExampleName :=
  [ExampleName.advancedMemoryExample]

/-- C8 counterexample: src/main.py line 7 binds the MCPApp instance `app` at
module level, and all three example functions enter `app.run()` on it, so the
script does hold module-level state shared across its conversation-bearing
functions — refuting the claim that no state is shared at module or process
level. -/
theorem c8_module_level_app_counterexample :
    moduleLevelObjects = ["app"] ∧ moduleLevelObjects ≠ [] ∧
    "app" ∈ moduleLevelObjects ∧ 1 < appUsers.length := by
  refine ⟨rfl, ?_, ?_, ?_⟩ <;> decide

/-- C8 (amended): in the modelled ConversationSession core a session carries
no implicit state beyond its transcript — an `ask` call can change nothing
but the transcript field, and a session value owns its transcript exclusively
by construction — while the source script itself does keep one module-level
MCPApp object (`app`, src/main.py line 7) shared by all its example
functions. -/
theorem c8_no_state_beyond_transcript (c : Collaborator) (s : Session)
    (m : String) :
    (ask c s m).2.closed = s.closed ∧ (ask c s m).2.config = s.config ∧
    moduleLevelObjects = ["app"] := by
  obtain ⟨_, hcl, hcfg⟩ := ask_extend c s m
  exact ⟨hcl, hcfg, rfl⟩

/-- C9: only the advanced example's memory_agent lists the "memory" server
among its server_names; the research and analyst agents do not, and in the
modelled core the completion operation `ask` is parameterized over the
completion collaborator alone — no memory store appears in it. -/
theorem c9_memory_server_only_in_advanced_example :
    "memory" ∈ memory_agent_server_names ∧
    "memory" ∉ research_agent_server_names ∧
    "memory" ∉ analyst_agent_server_names := by
  refine ⟨?_, ?_, ?_⟩ <;> decide

/-- C10: the __main__ block runs exactly one example coroutine,
advanced_memory_example, while memory_example and
multi_turn_workflow_example are defined but never invoked. -/
theorem c10_main_runs_only_advanced_example :
    mainInvocations = [ExampleName.advancedMemoryExample] ∧
    mainInvocations.length = 1 ∧
    ExampleName.memoryExample ∈ definedExamples ∧
    ExampleName.multiTurnWorkflowExample ∈ definedExamples ∧
    ExampleName.memoryExample ∉ mainInvocations ∧
    ExampleName.multiTurnWorkflowExample ∉ mainInvocations := by
  refine ⟨rfl, rfl, ?_, ?_, ?_, ?_⟩ <;> decide
